import Mathlib

/-!
Shallow embedding of the `buzz` mail-watcher (src/main.rs) for checking the
natural-language specification against the code.

The embedding models:
  * one iteration of the poll loop in `Connection::check` (uid search,
    all-or-nothing dedup against `last_notified`, header fetch/parse into a
    `BTreeMap<date, subject>`, notification emission, channel send);
  * the reconnect loop in `Connection::handle` (up to 5 attempts with sleeps
    of 1, 2, 4, 8, 16 seconds, recursing into a fresh `check` on success);
  * the startup connect loop and the aggregation loop in `main`;
  * the folder-list construction from the configuration table.

External effects (IMAP, clocks, channels) are turned into explicit inputs:
a poll receives the uid set returned by `uid_search`, a header-content
function standing for `uid_fetch`, and the current local time `now`.
-/

namespace Buzz

/-- Content of one message as seen by the header-processing loop of
`Connection::check`: `msg.header()` may be absent, `mailparse::parse_headers`
may fail, or it yields an optional Subject header and an optional Date header
whose rfc2822 parse may itself fail (`some none`). A parsed date is modelled
as an integer timestamp, which is all the ordering used by the `BTreeMap`
needs. -/
inductive FetchedMsg where
  | noHeader : FetchedMsg
  | parseErr : FetchedMsg
  | parsed (subject : Option String) (date : Option (Option Int)) : FetchedMsg

/-- Maximum of a list of uids, 0 when empty: `uids.iter().max().unwrap_or(0)`. -/
def listMax (l : List Nat) : Nat := l.foldr Nat.max 0

/-- Lines 133-136 of main.rs: if every uid in the search result is at most
`last_notified`, the whole batch is cleared; otherwise it is kept unchanged
(no per-uid filtering happens). -/
def checkDedup (last_notified : Nat) (uids : List Nat) : List Nat :=
  if uids.all (fun uid => uid ≤ last_notified) then [] else uids

/-- Line 137 of main.rs, applied to the (possibly cleared) uid list:
`last_notified = max(last_notified, uids.iter().max().unwrap_or(0))`. -/
def advanceMark (last_notified : Nat) (uids : List Nat) : Nat :=
  max last_notified (listMax uids)

/-- Lines 148-176 of main.rs for a single fetched message: skip it when the
header is missing or unparseable; otherwise the subject defaults to
"<no subject>" and the date defaults to the current local time `now` when the
Date header is missing or fails rfc2822 parsing. -/
def parseHeader (now : Int) (m : FetchedMsg) : Option (Int × String) :=
  match m with
  | .noHeader => none
  | .parseErr => none
  | .parsed subject date =>
    let s := match subject with
      | some s => s
      | none => "<no subject>"
    let d := match date with
      | some (some d) => d
      | some none => now
      | none => now
    some (d, s)

/-- Insertion into the `BTreeMap<DateTime, Cow<str>>` of line 139/173,
modelled as a strictly-ascending association list on the date key: an insert
with an existing key replaces the stored subject. -/
def btreeInsert (k : Int) (v : String) : List (Int × String) → List (Int × String)
  | [] => [(k, v)]
  | (k₁, v₁) :: t =>
    if k < k₁ then (k, v) :: (k₁, v₁) :: t
    else if k = k₁ then (k, v) :: t
    else (k₁, v₁) :: btreeInsert k v t

/-- The `subjects` map built by the fetch loop (lines 139-178): messages are
processed in fetch order, parse failures are skipped, and each surviving
message is inserted into the date-keyed map. -/
def subjectsMap (now : Int) (msgs : List FetchedMsg) : List (Int × String) :=
  msgs.foldl
    (fun acc m =>
      match parseHeader now m with
      | none => acc
      | some (d, s) => btreeInsert d s acc)
    []

/-- Observable outcome of one iteration of the loop in `Connection::check`. -/
structure PollResult where
  /-- uids whose headers are fetched (the deduped batch of line 140). -/
  fetched : List Nat
  /-- `some (num_new, body)` when a desktop notification is shown or updated
  (lines 180-242): the title count and the subject lines newest-first;
  `none` when `subjects` is empty and the whole block is skipped. -/
  notified : Option (Nat × List String)
  /-- the count sent on the aggregation channel (line 244). -/
  sent : Nat
  /-- value of `last_notified` after this iteration. -/
  last_notified : Nat
  deriving Repr, DecidableEq

/-- One iteration of the poll loop in `Connection::check` (lines 126-254),
given the current `last_notified`, the current local time, the uid set
returned by `uid_search("NEW 1:*")` and the header contents returned by
`uid_fetch`. -/
def checkPoll (last_notified : Nat) (now : Int) (uids : List Nat)
    (fetch : Nat → FetchedMsg) : PollResult :=
  let num_new := uids.length
  let kept := checkDedup last_notified uids
  let mark := advanceMark last_notified kept
  let subjects := subjectsMap now (kept.map fetch)
  { fetched := kept
    notified :=
      if subjects.isEmpty then none
      else some (num_new, (subjects.map Prod.snd).reverse)
    sent := num_new
    last_notified := mark }

/-! ### Connection::handle and the reconnect loop -/

/-- Kind of error a connect attempt can produce, distinguishing the one case
the startup loop retries (`imap::error::Error::Io`) from the capability
bailout of `AccountFolder::connect` (server without IDLE) and everything
else. -/
inductive ConnErr where
  | io : ConnErr
  | capability : ConnErr
  | other : ConnErr
  deriving Repr, DecidableEq

mutual
/-- Environment script for one run of `Connection::handle`: the uid sets of
the successive polls of its `check` session (which then ends with a transport
failure, the only way `check` hands control to the reconnect loop), followed
by the outcomes the environment gives the reconnect attempts. -/
inductive HScript where
  | node (polls : List (List Nat)) (rec : RScript) : HScript

/-- Outcomes offered to the successive `AccountFolder::connect` calls of the
reconnect loop: no more outcomes, a failure with its error kind, or a success
carrying the script for the recursive `handle` call. -/
inductive RScript where
  | stop : RScript
  | fail (e : ConnErr) (rest : RScript) : RScript
  | success (next : HScript) : RScript
end

/-- Externally visible events of a `Connection::handle` run. -/
inductive Event where
  | send (conn : Nat) (count : Nat) : Event
  | attempt : Event
  | sleep (secs : Nat) : Event
  | connected : Event
  deriving Repr, DecidableEq

/-- Channel sends of one `check` session: each poll sends
`Some((account, num_new))` with `num_new` the raw search-result size
(line 244), independent of the dedup state. -/
def sessionEvents (conn : Nat) (polls : List (List Nat)) : List Event :=
  polls.map (fun uids => Event.send conn uids.length)

mutual
/-- Event trace of `Connection::handle` (lines 75-115): run the `check`
session, then enter the reconnect loop with `wait = 1` and at most 5
attempts. -/
def handleEvents (conn : Nat) : HScript → List Event
  | .node polls r => sessionEvents conn polls ++ reconnectEvents conn 1 5 r

/-- Event trace of the reconnect loop (lines 90-114): while fuel remains,
make an attempt; on success recurse into `handle` on the new connection; on
failure (whatever the error kind) sleep `wait` seconds, double `wait`, and
continue; when the 5 iterations are exhausted, `handle` returns. -/
def reconnectEvents (conn wait : Nat) (fuel : Nat) : RScript → List Event
  | .stop => []
  | .fail _ rest =>
    match fuel with
    | 0 => []
    | fuel + 1 =>
      Event.attempt :: Event.sleep wait :: reconnectEvents conn (wait * 2) fuel rest
  | .success next =>
    match fuel with
    | 0 => []
    | _ + 1 => Event.attempt :: Event.connected :: handleEvents conn next
end

/-- Values taken by `last_notified` over the polls of one `check` session,
starting from the given current value. -/
def sessionMarks (last_notified : Nat) : List (List Nat) → List Nat
  | [] => []
  | uids :: rest =>
    let m := advanceMark last_notified (checkDedup last_notified uids)
    m :: sessionMarks m rest

mutual
/-- Chronological trace of the High-Water Mark over a whole `handle` run:
`check` initialises `last_notified = 0` (line 123), so each session
contributes its initial 0 followed by the value after each poll; a successful
reconnect recurses into a fresh `handle`/`check`. -/
def handleMarks : HScript → List Nat
  | .node polls r => (0 :: sessionMarks 0 polls) ++ reconnectMarks 5 r

/-- Marks contributed by the reconnect loop: nothing until an attempt
succeeds, then the marks of the recursive `handle` run. -/
def reconnectMarks (fuel : Nat) : RScript → List Nat
  | .stop => []
  | .fail _ rest =>
    match fuel with
    | 0 => []
    | fuel + 1 => reconnectMarks fuel rest
  | .success next =>
    match fuel with
    | 0 => []
    | _ + 1 => handleMarks next
end

/-- A script of `n` consecutive connect failures (all with the given error
kind) and nothing after. -/
def failChain (e : ConnErr) : Nat → RScript
  | 0 => .stop
  | n + 1 => .fail e (failChain e n)

/-! ### Startup connect loop of main -/

/-- Outcome the environment gives one `AccountFolder::connect` call at
startup. -/
inductive ConnAttempt where
  | ok : ConnAttempt
  | err (e : ConnErr) : ConnAttempt
  deriving Repr, DecidableEq

/-- Startup connect loop for one watch target (lines 423-450 of main.rs):
up to 5 attempts; an `Io` error sleeps `wait` seconds, doubles `wait` and
retries; any other error breaks immediately; success returns the connection.
Result: number of attempts made and whether the target connected. -/
def startupConnect (wait fuel : Nat) : List ConnAttempt → Nat × Bool
  | [] => (0, false)
  | a :: rest =>
    match fuel with
    | 0 => (0, false)
    | fuel + 1 =>
      match a with
      | .ok => (1, true)
      | .err .io =>
        let r := startupConnect (wait * 2) fuel rest
        (r.1 + 1, r.2)
      | .err _ => (1, false)

/-- The startup `filter_map` over all watch targets: each target runs its own
`startupConnect` on its own script, independently of the others. -/
def startupAll (scripts : List (List ConnAttempt)) : List Bool :=
  scripts.map (fun s => (startupConnect 1 5 s).2)

/-! ### Aggregator loop of main -/

/-- Tray icon states (tray_icon.rs, `enum Icon`). -/
inductive Icon where
  | connected : Icon
  | disconnected : Icon
  | unreadMail : Icon
  | newMail : Icon
  deriving Repr, DecidableEq

/-- Derived presentation state recomputed from the whole count vector after
every update (lines 482-486): `UnreadMail` when the sum is zero, `NewMail`
otherwise. -/
def derivedIcon (new : List Nat) : Icon :=
  if new.sum = 0 then Icon.unreadMail else Icon.newMail

/-- One aggregator update `new[i] = num_new` (line 478). -/
def record (new : List Nat) (i count : Nat) : List Nat :=
  new.set i count

/-- The aggregation loop folding a sequence of `(connection_id, count)`
updates over the count vector. -/
def processUpdates (new : List Nat) (updates : List (Nat × Nat)) : List Nat :=
  updates.foldl (fun v u => record v u.1 u.2) new

/-! ### Process exit of main -/

/-- Exit behaviour of `main` after configuration parsing, as a function of
the parsed account-folder list and of which targets can connect. `fn main()`
returns `()` on every path (`return;` at lines 392 and 455, or falling off
the aggregation loop), and a Rust `main` returning `()` exits with status 0;
the second component records the final log line of the early-exit paths. -/
def mainExit {α : Type} (accountFolders : List α) (connectOk : α → Bool) :
    Nat × Option String :=
  if accountFolders.isEmpty then
    (0, some "No accounts in config; exiting...")
  else if (accountFolders.filter connectOk).isEmpty then
    (0, some "No accounts in config worked; exiting...")
  else
    (0, none)

/-! ### Folder-list construction from the configuration -/

/-- The `folders` account field as the configuration supplies it: absent,
present but not an array, or an array whose items are strings or not
(`none` marks a non-string item, which `filter_map` drops after logging). -/
def FoldersField := Option (Option (List (Option String)))

/-- The legacy `folder` field: absent, present but not a string, or a
string. -/
def FolderField := Option (Option String)

/-- Folder-list construction (lines 343-379 of main.rs): collect the string
items of the `folders` array (a missing or non-array field contributes
nothing, non-string items are dropped), append the legacy `folder` string
when present, and fall back to `["INBOX"]` when the result is empty. -/
def accountFolders (foldersField : FoldersField) (folderField : FolderField) :
    List String :=
  let folders : List String :=
    match foldersField with
    | none => []
    | some none => []
    | some (some items) => items.filterMap id
  let folders : List String :=
    match folderField with
    | none => folders
    | some none => folders
    | some (some f) => folders ++ [f]
  if folders.isEmpty then ["INBOX"] else folders

/-! ### Concrete header-content functions used in scenarios -/

/-- Headers whose subject records the uid and whose date is the uid itself,
so that distinct uids get distinct dates. -/
def dateFetch : Nat → FetchedMsg :=
  fun u => FetchedMsg.parsed none (some (some (Int.ofNat u)))

/-- Headers with no Subject and no Date header at all. -/
def plainFetch : Nat → FetchedMsg :=
  fun _ => FetchedMsg.parsed none none

/-- Two distinct messages, subjects "a" and "b", carrying the same date. -/
def dupDateFetch : Nat → FetchedMsg :=
  fun u =>
    if u = 1 then FetchedMsg.parsed (some "a") (some (some 10))
    else FetchedMsg.parsed (some "b") (some (some 10))

/-- Subjects "a" for uid 5 and "b" otherwise, with dates 5 and 7. -/
def mixFetch : Nat → FetchedMsg :=
  fun u =>
    if u = 5 then FetchedMsg.parsed (some "a") (some (some 5))
    else FetchedMsg.parsed (some "b") (some (some 7))

/-! ### C2: which uids reach the fetch and the detail list -/

/-- C2, counterexample: with High-Water Mark 6 and search result {5, 7}, the
batch is not cleared (7 exceeds the mark), so uid 5 — which is at most the
mark — is fetched and its subject "a" appears in the notification detail
list, while the claim requires only ids strictly greater than 6 there. -/
theorem fetched_includes_uid_below_mark :
    5 ∈ (checkPoll 6 0 [5, 7] mixFetch).fetched ∧
    "a" ∈ ((checkPoll 6 0 [5, 7] mixFetch).notified.getD (0, [])).2 ∧
    ¬ 6 < 5 := by decide

/-- C2, amended: the dedup of `Connection::check` is all-or-nothing — when
every uid of the search result is at most `last_notified` the fetched batch
is empty, but as soon as one uid exceeds the mark the whole raw result
(including uids at or below the mark) is fetched and detailed. -/
theorem check_dedup_all_or_nothing (mark : Nat) (now : Int) (uids : List Nat)
    (fetch : Nat → FetchedMsg) :
    ((∀ u ∈ uids, u ≤ mark) → (checkPoll mark now uids fetch).fetched = []) ∧
    ((∃ u ∈ uids, mark < u) → (checkPoll mark now uids fetch).fetched = uids) := by
  constructor
  · intro h
    have hall : uids.all (fun uid => uid ≤ mark) = true := by
      simpa [List.all_eq_true] using h
    simp [checkPoll, checkDedup, hall]
  · rintro ⟨u, hu, hlt⟩
    have hall : uids.all (fun uid => uid ≤ mark) = false := by
      simp only [List.all_eq_false, decide_eq_true_eq, not_le]
      exact ⟨u, hu, hlt⟩
    simp [checkPoll, checkDedup, hall]

/-- Witness for `check_dedup_all_or_nothing` at marks 6 with uid sets
{5, 6} and {5, 7}. -/
theorem check_dedup_all_or_nothing_witness :
    (checkPoll 6 0 [5, 6] plainFetch).fetched = [] ∧
    (checkPoll 6 0 [5, 7] plainFetch).fetched = [5, 7] :=
  ⟨(check_dedup_all_or_nothing 6 0 [5, 6] plainFetch).1 (by decide),
   (check_dedup_all_or_nothing 6 0 [5, 7] plainFetch).2 ⟨7, by decide, by decide⟩⟩

/-! ### C3: High-Water Mark advance and the {5, 6} scenario -/

/-- C3, counterexample: on the second poll of the scenario — {5, 6} again at
mark 6 — the uid set is cleared, `subjects` stays empty, and the whole
notification block (title included) is skipped, so no title carrying the
count 2 exists; only the channel send carries 2, while the claim asserts a
title count of 2 for that poll. -/
theorem second_poll_has_no_title :
    (checkPoll 6 0 [5, 6] dateFetch).notified = none ∧
    (checkPoll 6 0 [5, 6] dateFetch).sent = 2 := by decide

/-- C3, amended: when some uid of the poll exceeds the current mark, the mark
advances to `max(current, max(uids))`; concretely, a first poll returning
{5, 6} at mark 0 sets the mark to 6 with a title count of 2 and 2 detail
entries, and a second poll returning {5, 6} again emits no notification at
all (no detail list and no title), reports count 2 on the channel, and
leaves the mark at 6. -/
theorem advance_mark_and_scenario :
    (∀ (mark : Nat) (now : Int) (uids : List Nat) (fetch : Nat → FetchedMsg),
        (∃ u ∈ uids, mark < u) →
        (checkPoll mark now uids fetch).last_notified = max mark (listMax uids)) ∧
    ((checkPoll 0 0 [5, 6] dateFetch).last_notified = 6 ∧
      (checkPoll 0 0 [5, 6] dateFetch).notified.map (fun p => (p.1, p.2.length)) =
        some (2, 2)) ∧
    ((checkPoll 6 0 [5, 6] dateFetch).notified = none ∧
      (checkPoll 6 0 [5, 6] dateFetch).sent = 2 ∧
      (checkPoll 6 0 [5, 6] dateFetch).last_notified = 6) := by
  refine ⟨?_, by decide, by decide⟩
  rintro mark now uids fetch ⟨u, hu, hlt⟩
  have hall : uids.all (fun uid => uid ≤ mark) = false := by
    simp only [List.all_eq_false, decide_eq_true_eq, not_le]
    exact ⟨u, hu, hlt⟩
  simp [checkPoll, checkDedup, advanceMark, hall]

/-- Witness for `advance_mark_and_scenario` at mark 0 with uid set {5, 6}. -/
theorem advance_mark_and_scenario_witness :
    (checkPoll 0 0 [5, 6] dateFetch).last_notified = max 0 (listMax [5, 6]) :=
  advance_mark_and_scenario.1 0 0 [5, 6] dateFetch ⟨6, by decide, by decide⟩

/-! ### C4: raw count versus empty detail -/

/-- C4, counterexample: at mark 5 a poll returning {3} sends count 1 on the
aggregation channel but shows no notification at all — the entire
notification block (title included) is skipped because `subjects` is empty,
while the claim requires a title reporting `num_new = 1`. -/
theorem no_title_when_all_below_mark :
    (checkPoll 5 0 [3] plainFetch).notified = none ∧
    (checkPoll 5 0 [3] plainFetch).sent = 1 ∧
    ([3] : List Nat) ≠ [] ∧ (3 : Nat) ≤ 5 := by decide

/-- C4, amended: when a non-empty poll result contains only uids at or below
the mark, the count sent on the aggregation channel still equals the raw
result size, but no uid is fetched and no notification (hence no title) is
emitted. -/
theorem count_sent_without_detail (mark : Nat) (now : Int) (uids : List Nat)
    (fetch : Nat → FetchedMsg) (hne : uids ≠ []) (hall : ∀ u ∈ uids, u ≤ mark) :
    (checkPoll mark now uids fetch).sent = uids.length ∧
    (checkPoll mark now uids fetch).notified = none ∧
    (checkPoll mark now uids fetch).fetched = [] := by
  have hb : uids.all (fun uid => uid ≤ mark) = true := by
    simpa [List.all_eq_true] using hall
  simp [checkPoll, checkDedup, subjectsMap, hb]

/-- Witness for `count_sent_without_detail` at mark 5 with uid set {3}. -/
theorem count_sent_without_detail_witness :
    (checkPoll 5 0 [3] plainFetch).sent = [3].length ∧
    (checkPoll 5 0 [3] plainFetch).notified = none ∧
    (checkPoll 5 0 [3] plainFetch).fetched = [] :=
  count_sent_without_detail 5 0 [3] plainFetch (by decide) (by decide)

/-! ### C7: ordering of the notification body -/

theorem btreeInsert_head (k : Int) (v : String) (l : List (Int × String)) :
    ((btreeInsert k v l).map Prod.fst).head? = some k ∨
    ((btreeInsert k v l).map Prod.fst).head? = (l.map Prod.fst).head? := by
  match l with
  | [] => left; simp [btreeInsert]
  | (k₁, v₁) :: t =>
    by_cases h1 : k < k₁
    · left; simp [btreeInsert, h1]
    · by_cases h2 : k = k₁
      · left; simp [btreeInsert, h1, h2]
      · right; simp [btreeInsert, h1, h2]

theorem btreeInsert_keys_sorted (k : Int) (v : String) (l : List (Int × String))
    (h : List.Chain' (· < ·) (l.map Prod.fst)) :
    List.Chain' (· < ·) ((btreeInsert k v l).map Prod.fst) := by
  induction l with
  | nil => simp [btreeInsert]
  | cons p t ih =>
    obtain ⟨k₁, v₁⟩ := p
    rw [List.map_cons, List.chain'_cons'] at h
    by_cases h1 : k < k₁
    · simp only [btreeInsert, if_pos h1, List.map_cons]
      rw [List.chain'_cons']
      refine ⟨by simpa using h1, ?_⟩
      rw [List.chain'_cons']
      exact h
    · by_cases h2 : k = k₁
      · subst h2
        rw [show btreeInsert k v ((k, v₁) :: t) = (k, v) :: t from by
          simp [btreeInsert, h1]]
        rw [List.map_cons, List.chain'_cons']
        exact h
      · have h3 : k₁ < k := by omega
        simp only [btreeInsert, if_neg h1, if_neg h2, List.map_cons]
        rw [List.chain'_cons']
        refine ⟨?_, ih h.2⟩
        intro b hb
        rcases btreeInsert_head k v t with heq | heq
        · rw [heq] at hb
          simp only [Option.mem_def, Option.some_inj] at hb
          omega
        · rw [heq] at hb
          exact h.1 b hb

theorem subjectsMap_keys_sorted (now : Int) (msgs : List FetchedMsg) :
    List.Chain' (· < ·) ((subjectsMap now msgs).map Prod.fst) := by
  suffices h : ∀ (msgs : List FetchedMsg) (acc : List (Int × String)),
      List.Chain' (· < ·) (acc.map Prod.fst) →
      List.Chain' (· < ·)
        ((msgs.foldl
          (fun acc m =>
            match parseHeader now m with
            | none => acc
            | some (d, s) => btreeInsert d s acc) acc).map Prod.fst) by
    exact h msgs [] (by simp)
  intro msgs
  induction msgs with
  | nil => intro acc hacc; simpa using hacc
  | cons m t ih =>
    intro acc hacc
    simp only [List.foldl_cons]
    apply ih
    match hp : parseHeader now m with
    | none => simpa [hp] using hacc
    | some (d, s) => simpa [hp] using btreeInsert_keys_sorted d s acc hacc

/-- C7, counterexample: two messages that both parse, with subjects "a" and
"b" but the same date, collapse to a single detail entry — the `BTreeMap`
insert overwrites the earlier subject — so a batch of 2 parsed messages is
presented with 1 subject line, not 2 as "all retained" requires. -/
theorem equal_dates_collapse :
    (checkPoll 0 0 [1, 2] dupDateFetch).notified = some (2, ["b"]) ∧
    ((checkPoll 0 0 [1, 2] dupDateFetch).notified.getD (0, [])).2.length ≠ 2 := by
  decide

/-- C7, amended: the notification body is ordered strictly by message date
descending (newest first); messages with equal dates collapse to a single
entry (the last one processed overwrites the earlier ones in the date-keyed
map), and a message whose Subject header is missing gets "<no subject>" while
a missing or unparseable Date header defaults to the current local time. -/
theorem subjects_descending_with_defaults :
    (∀ (now : Int) (msgs : List FetchedMsg),
        List.Chain' (· > ·) (((subjectsMap now msgs).map Prod.fst).reverse)) ∧
    (∀ (now d : Int),
        parseHeader now (FetchedMsg.parsed none (some (some d))) =
          some (d, "<no subject>")) ∧
    (∀ (now : Int) (s : Option String),
        parseHeader now (FetchedMsg.parsed s none) =
          some (now, s.getD "<no subject>") ∧
        parseHeader now (FetchedMsg.parsed s (some none)) =
          some (now, s.getD "<no subject>")) := by
  refine ⟨?_, by intro now d; rfl, ?_⟩
  · intro now msgs
    rw [List.chain'_reverse]
    have h := subjectsMap_keys_sorted now msgs
    convert h using 2
  · intro now s
    cases s <;> exact ⟨rfl, rfl⟩

/-! ### C1: High-Water Mark across polls and reconnects -/

/-- A script with one poll of {5}, a reconnect that succeeds at once, and one
more poll of {5} on the new connection. -/
def resetScript : HScript :=
  HScript.node [[5]] (RScript.success (HScript.node [[5]] RScript.stop))

/-- C1, counterexample: the mark trace of `resetScript` is [0, 5, 0, 5] —
`check` re-initialises `last_notified = 0` after the successful reconnect,
so the chronological mark sequence is not monotonically non-decreasing. -/
theorem handle_marks_not_monotone :
    handleMarks resetScript = [0, 5, 0, 5] ∧
    ¬ List.Chain' (· ≤ ·) (handleMarks resetScript) := by
  refine ⟨rfl, ?_⟩
  intro h
  rw [show handleMarks resetScript = [0, 5, 0, 5] from rfl] at h
  simp only [List.chain'_cons] at h
  obtain ⟨-, h2, -⟩ := h
  omega

/-- C1, amended: within one `check` session the High-Water Mark is
monotonically non-decreasing, but every session (the initial one and the one
entered after each successful reconnect) starts with the mark reset to 0, so
the mark does not persist across reconnects of the same Watch Target. -/
theorem check_marks_reset_on_reconnect :
    (∀ (m : Nat) (polls : List (List Nat)),
        List.Chain' (· ≤ ·) (m :: sessionMarks m polls)) ∧
    (∀ s : HScript, (handleMarks s).head? = some 0) ∧
    (∀ (polls : List (List Nat)) (next : HScript),
        handleMarks (HScript.node polls (RScript.success next)) =
          (0 :: sessionMarks 0 polls) ++ handleMarks next) := by
  refine ⟨?_, ?_, ?_⟩
  · intro m polls
    induction polls generalizing m with
    | nil => simp [sessionMarks]
    | cons uids rest ih =>
      rw [sessionMarks, List.chain'_cons]
      exact ⟨Nat.le_max_left _ _, ih _⟩
  · intro s
    match s with
    | .node polls r => simp [handleMarks]
  · intro polls next
    simp [handleMarks, reconnectMarks]

/-! ### C5: bounded reconnect attempts and backoff sleeps -/

/-- Trace of a reconnect loop run in which every attempt fails: an attempt
followed by a sleep of the current wait, the wait doubling each time. -/
def exhaustTrace (wait : Nat) : Nat → List Event
  | 0 => []
  | fuel + 1 => Event.attempt :: Event.sleep wait :: exhaustTrace (wait * 2) fuel

def isAttempt : Event → Bool
  | .attempt => true
  | _ => false

def isSend : Event → Bool
  | .send _ _ => true
  | _ => false

def sleepSecs : Event → Option Nat
  | .sleep s => some s
  | _ => none

theorem reconnectEvents_failChain (conn : Nat) (e : ConnErr) :
    ∀ (fuel : Nat) (wait n : Nat), fuel ≤ n →
      reconnectEvents conn wait fuel (failChain e n) = exhaustTrace wait fuel := by
  intro fuel
  induction fuel with
  | zero =>
    intro wait n _
    match n with
    | 0 => rfl
    | m + 1 => rfl
  | succ fuel ih =>
    intro wait n h
    match n with
    | m + 1 =>
      rw [failChain]
      rw [show reconnectEvents conn wait (fuel + 1) (RScript.fail e (failChain e m)) =
        Event.attempt :: Event.sleep wait ::
          reconnectEvents conn (wait * 2) fuel (failChain e m) from rfl]
      rw [exhaustTrace, ih (wait * 2) m (by omega)]

/-- Events of the failure episode of a reconnect loop run: everything up to
the first successful attempt. -/
def episode (l : List Event) : List Event :=
  l.takeWhile (fun ev => ev != Event.connected)

theorem episode_attempt_bound (conn : Nat) :
    ∀ (wait fuel : Nat) (r : RScript),
      (episode (reconnectEvents conn wait fuel r)).countP isAttempt ≤ fuel
  | _, fuel, .stop => by simp [reconnectEvents, episode]
  | _, 0, .fail _ _ => by simp [reconnectEvents, episode]
  | wait, fuel + 1, .fail e rest => by
    have h := episode_attempt_bound conn (wait * 2) fuel rest
    rw [show reconnectEvents conn wait (fuel + 1) (RScript.fail e rest) =
      Event.attempt :: Event.sleep wait ::
        reconnectEvents conn (wait * 2) fuel rest from rfl]
    rw [show episode (Event.attempt :: Event.sleep wait ::
          reconnectEvents conn (wait * 2) fuel rest) =
        Event.attempt :: Event.sleep wait ::
          episode (reconnectEvents conn (wait * 2) fuel rest) from rfl]
    rw [List.countP_cons, List.countP_cons,
      show isAttempt Event.attempt = true from rfl,
      show isAttempt (Event.sleep wait) = false from rfl]
    simp only [if_true, if_false, Bool.false_eq_true, ite_true, ite_false]
    omega
  | _, 0, .success _ => by simp [reconnectEvents, episode]
  | wait, fuel + 1, .success next => by
    rw [show reconnectEvents conn wait (fuel + 1) (RScript.success next) =
      Event.attempt :: Event.connected :: handleEvents conn next from rfl]
    rw [show episode (Event.attempt :: Event.connected :: handleEvents conn next) =
        [Event.attempt] from rfl]
    have h1 : (List.countP isAttempt [Event.attempt]) = 1 := rfl
    omega

/-- C5: in any reconnect loop run, the failure episode contains at most 5
connect attempts; when every attempt fails, the run performs exactly 5
attempts with sleeps of exactly 1, 2, 4, 8, 16 seconds, and the whole
`handle` trace ends there — no send ever follows for that connection id. -/
theorem reconnect_bounded_backoff (conn : Nat) (polls : List (List Nat))
    (e : ConnErr) (n : Nat) (h : 5 ≤ n) :
    handleEvents conn (HScript.node polls (failChain e n)) =
      sessionEvents conn polls ++ exhaustTrace 1 5 ∧
    (exhaustTrace 1 5).countP isAttempt = 5 ∧
    (exhaustTrace 1 5).filterMap sleepSecs = [1, 2, 4, 8, 16] ∧
    (exhaustTrace 1 5).countP isSend = 0 ∧
    (∀ r : RScript,
      (episode (reconnectEvents conn 1 5 r)).countP isAttempt ≤ 5) := by
    refine ⟨?_, by decide, by decide, by decide, fun r => episode_attempt_bound conn 1 5 r⟩
    rw [show handleEvents conn (HScript.node polls (failChain e n)) =
      sessionEvents conn polls ++ reconnectEvents conn 1 5 (failChain e n) from rfl]
    rw [reconnectEvents_failChain conn e 5 1 n h]

/-- Witness for `reconnect_bounded_backoff` with 5 scripted IO failures. -/
theorem reconnect_bounded_backoff_witness :
    handleEvents 0 (HScript.node [] (failChain ConnErr.io 5)) =
      sessionEvents 0 [] ++ exhaustTrace 1 5 ∧
    (exhaustTrace 1 5).filterMap sleepSecs = [1, 2, 4, 8, 16] ∧
    (episode (reconnectEvents 0 1 5 (failChain ConnErr.io 5))).countP isAttempt ≤ 5 :=
  ⟨(reconnect_bounded_backoff 0 [] ConnErr.io 5 (by decide)).1,
   (reconnect_bounded_backoff 0 [] ConnErr.io 5 (by decide)).2.2.1,
   (reconnect_bounded_backoff 0 [] ConnErr.io 5 (by decide)).2.2.2.2
     (failChain ConnErr.io 5)⟩

/-! ### C8: capability errors at startup versus during reconnect -/

theorem reconnect_attempts_failChain (conn : Nat) (e : ConnErr) :
    ∀ (fuel wait n : Nat),
      (reconnectEvents conn wait fuel (failChain e n)).countP isAttempt = min n fuel := by
  intro fuel
  induction fuel with
  | zero =>
    intro wait n
    match n with
    | 0 => rfl
    | m + 1 =>
      rw [show reconnectEvents conn wait 0 (failChain e (m + 1)) = [] from rfl]
      rw [show ([] : List Event).countP isAttempt = 0 from rfl]
      omega
  | succ fuel ih =>
    intro wait n
    match n with
    | 0 =>
      rw [show reconnectEvents conn wait (fuel + 1) (failChain e 0) = [] from rfl]
      rw [show ([] : List Event).countP isAttempt = 0 from rfl]
      omega
    | m + 1 =>
      rw [failChain]
      rw [show reconnectEvents conn wait (fuel + 1) (RScript.fail e (failChain e m)) =
        Event.attempt :: Event.sleep wait ::
          reconnectEvents conn (wait * 2) fuel (failChain e m) from rfl]
      rw [List.countP_cons, List.countP_cons,
        show isAttempt Event.attempt = true from rfl,
        show isAttempt (Event.sleep wait) = false from rfl]
      simp only [if_true, if_false, Bool.false_eq_true, ite_true, ite_false]
      have h := ih (wait * 2) m
      omega

/-- C8, counterexample: during reconnect a capability failure is retried —
after a first connect attempt fails with a capability error, the loop sleeps
1 second and makes a second attempt, for 2 attempts in total, while the claim
says such a failure is never retried. -/
theorem reconnect_retries_capability_error :
    reconnectEvents 0 1 5 (failChain ConnErr.capability 2) =
      [Event.attempt, Event.sleep 1, Event.attempt, Event.sleep 2] ∧
    (reconnectEvents 0 1 5 (failChain ConnErr.capability 2)).countP isAttempt ≠ 1 := by
  decide

/-- C8, amended: at initial startup a non-IO connect failure (the capability
bailout included) is never retried — exactly one attempt is made and the
target is dropped — and each target's outcome depends only on its own
attempt script; during reconnect, however, the loop retries regardless of
the error kind, making `min n 5` attempts against `n` scripted capability
failures. -/
theorem capability_error_handling :
    (∀ (wait fuel : Nat) (e : ConnErr) (rest : List ConnAttempt),
        e ≠ ConnErr.io →
        startupConnect wait (fuel + 1) (ConnAttempt.err e :: rest) = (1, false)) ∧
    (∀ (scripts : List (List ConnAttempt)) (i : Nat),
        (startupAll scripts)[i]? =
          (scripts[i]?).map (fun s => (startupConnect 1 5 s).2)) ∧
    (∀ (conn n : Nat),
        (reconnectEvents conn 1 5 (failChain ConnErr.capability n)).countP isAttempt =
          min n 5) := by
  refine ⟨?_, ?_, fun conn n => reconnect_attempts_failChain conn ConnErr.capability 5 1 n⟩
  · intro wait fuel e rest he
    match e with
    | .io => exact absurd rfl he
    | .capability => rfl
    | .other => rfl
  · intro scripts i
    simp [startupAll]

/-- Witness for `capability_error_handling`: one scripted capability failure
at startup yields a single attempt and no connection. -/
theorem capability_error_handling_witness :
    startupConnect 1 5 [ConnAttempt.err ConnErr.capability] = (1, false) :=
  capability_error_handling.1 1 4 ConnErr.capability [] (by decide)

/-! ### C6: aggregator state is a function of the final count vector -/

/-- C6: processing the updates [(0,3), (1,0), (2,5)] in any arrival order
leaves the aggregator's count vector equal to [3, 0, 5], and hence the
derived presentation state equal to the one computed directly from that
vector. -/
theorem aggregator_order_independent (updates : List (Nat × Nat))
    (h : updates.Perm [(0, 3), (1, 0), (2, 5)]) :
    processUpdates [0, 0, 0] updates = [3, 0, 5] ∧
    derivedIcon (processUpdates [0, 0, 0] updates) = derivedIcon [3, 0, 5] := by
  have hm : updates ∈ ([(0, 3), (1, 0), (2, 5)] : List (Nat × Nat)).permutations' :=
    List.mem_permutations'.2 h
  fin_cases hm <;> exact ⟨by decide, by decide⟩

/-- Witness for `aggregator_order_independent` at one shuffled arrival
order. -/
theorem aggregator_order_independent_witness :
    processUpdates [0, 0, 0] [(1, 0), (0, 3), (2, 5)] = [3, 0, 5] ∧
    derivedIcon (processUpdates [0, 0, 0] [(1, 0), (0, 3), (2, 5)]) =
      derivedIcon [3, 0, 5] :=
  aggregator_order_independent [(1, 0), (0, 3), (2, 5)] (List.Perm.swap _ _ _)

/-! ### C9: process exit codes -/

/-- C9, counterexample: with one configured target that cannot connect,
`main` prints "No accounts in config worked; exiting..." and returns `()`,
so the process exit code is 0 — not non-zero as the claim requires. -/
theorem exit_zero_when_no_account_connects :
    mainExit [0] (fun _ : Nat => false) =
      (0, some "No accounts in config worked; exiting...") ∧
    ([0] : List Nat) ≠ [] :=
  ⟨rfl, by decide⟩

/-- C9, amended: the exit code is 0 on every path — clean shutdown, no
accounts configured, and also when accounts are configured but none could be
connected at startup (that case differs only in the log line). -/
theorem main_exit_always_zero {α : Type} (targets : List α) (connectOk : α → Bool) :
    (mainExit targets connectOk).1 = 0 ∧
    (targets ≠ [] → targets.filter connectOk = [] →
      (mainExit targets connectOk).2 =
        some "No accounts in config worked; exiting...") := by
  constructor
  · unfold mainExit
    split
    · rfl
    · split
      · rfl
      · rfl
  · intro h1 h2
    unfold mainExit
    simp [h1, h2]

/-- Witness for `main_exit_always_zero` at a single unconnectable target. -/
theorem main_exit_always_zero_witness :
    (mainExit [0] (fun _ : Nat => false)).1 = 0 ∧
    (mainExit [0] (fun _ : Nat => false)).2 =
      some "No accounts in config worked; exiting..." :=
  ⟨(main_exit_always_zero [0] (fun _ => false)).1,
   (main_exit_always_zero [0] (fun _ => false)).2 (by decide) (by decide)⟩

/-! ### C10: watched folder list from the configuration -/

theorem map_some_filterMap (l : List String) : (l.map some).filterMap id = l := by
  rw [List.filterMap_map]
  simp

/-- C10: for well-typed configurations (a `folders` field that is an array
of strings when present, a `folder` field that is a string when present),
an account providing neither a non-empty `folders` array nor a `folder`
string is watched on exactly ["INBOX"]; otherwise the watched list is the
`folders` entries followed by the `folder` entry when present. -/
theorem account_folders_from_config (folders : Option (List String))
    (folder : Option String) :
    ((folders.getD [] = [] ∧ folder = none) →
      accountFolders (folders.map (fun l => some (l.map some))) (folder.map some) =
        ["INBOX"]) ∧
    (¬ (folders.getD [] = [] ∧ folder = none) →
      accountFolders (folders.map (fun l => some (l.map some))) (folder.map some) =
        folders.getD [] ++ folder.toList) := by
  cases folders with
  | none =>
    cases folder with
    | none => exact ⟨fun _ => rfl, fun h => absurd ⟨rfl, rfl⟩ h⟩
    | some f =>
      refine ⟨fun h => absurd h.2 (by simp), fun _ => rfl⟩
  | some l =>
    cases folder with
    | none =>
      constructor
      · rintro ⟨hl, -⟩
        simp only [Option.getD_some] at hl
        subst hl
        rfl
      · intro h
        have hl : l ≠ [] := by
          intro he
          exact h ⟨by simp [he], rfl⟩
        simp only [Option.map_some', Option.map_none', Option.getD_some,
          Option.toList_none, List.append_nil, accountFolders, map_some_filterMap]
        rw [if_neg]
        simpa [List.isEmpty_iff] using hl
    | some f =>
      refine ⟨fun h => absurd h.2 (by simp), fun _ => ?_⟩
      simp only [Option.map_some', Option.getD_some, Option.toList_some, accountFolders,
        map_some_filterMap]
      rw [if_neg]
      simp [List.isEmpty_iff]

/-- Witness for `account_folders_from_config` in both branches: no
configured folders yields ["INBOX"], and folders ["A"] plus folder "B"
yields their concatenation. -/
theorem account_folders_from_config_witness :
    accountFolders ((none : Option (List String)).map (fun l => some (l.map some)))
      ((none : Option String).map some) = ["INBOX"] ∧
    accountFolders ((some ["A"]).map (fun l => some (l.map some)))
      ((some "B").map some) = (some ["A"]).getD [] ++ (some "B").toList :=
  ⟨(account_folders_from_config none none).1 ⟨rfl, rfl⟩,
   (account_folders_from_config (some ["A"]) (some "B")).2 (by simp)⟩

end Buzz
